import Mathlib

/-!
Verification of the X.509 certificate decode pipeline and its trust
predicates (`src/lib/x509/x509cert.cpp`).

The ASN.1 primitive decoder, the individual certificate-extension decoders,
the hash functions, the public-key loader and the signature-verification
primitive are external collaborators of this translation unit.  Following
the specification they are modelled as inputs: the fields of `TBSInput`
carry the values those collaborators hand to `force_decode`, and `Caps`
carries the capability functions (`OID` registry classification, key
loading, signature checking, `SHA-1`).  Everything that
`X509_Certificate::force_decode` itself computes - the ordering of its
checks, the cross-field consistency rules, the extension-derived cached
fields - is translated directly from the source.
-/

namespace X509

/-- ASN.1 tag constant `SEQUENCE` (0x10). -/
def SEQUENCE : Nat := 0x10

/-- ASN.1 class constant `CONSTRUCTED` (0x20). -/
def CONSTRUCTED : Nat := 0x20

/-- ASN.1 class constant `CONTEXT_SPECIFIC` (0x80). -/
def CONTEXT_SPECIFIC : Nat := 0x80

/-- ASN.1 tag constant `NO_OBJECT` (0), the tag `get_next_object` reports at
end of input. -/
def NO_OBJECT : Nat := 0

/-- DER encoding of NULL parameters (`05 00`), the byte form produced by
`AlgorithmIdentifier::USE_NULL_PARAM`. -/
def DER_NULL : List Nat := [0x05, 0x00]

/-- Key usage bit `NO_CONSTRAINTS` (0): no Key Usage extension present. -/
def NO_CONSTRAINTS : Nat := 0

/-- Key usage bit `DIGITAL_SIGNATURE` (0x8000). -/
def DIGITAL_SIGNATURE : Nat := 0x8000

/-- Key usage bit `NON_REPUDIATION` (0x4000). -/
def NON_REPUDIATION : Nat := 0x4000

/-- Key usage bit `KEY_ENCIPHERMENT` (0x2000). -/
def KEY_ENCIPHERMENT : Nat := 0x2000

/-- Key usage bit `DATA_ENCIPHERMENT` (0x1000). -/
def DATA_ENCIPHERMENT : Nat := 0x1000

/-- Key usage bit `KEY_AGREEMENT` (0x800). -/
def KEY_AGREEMENT : Nat := 0x800

/-- Key usage bit `KEY_CERT_SIGN` (0x400). -/
def KEY_CERT_SIGN : Nat := 0x400

/-- Key usage bit `CRL_SIGN` (0x200). -/
def CRL_SIGN : Nat := 0x200

/-- Key usage bit `ENCIPHER_ONLY` (0x100). -/
def ENCIPHER_ONLY : Nat := 0x100

/-- Key usage bit `DECIPHER_ONLY` (0x80). -/
def DECIPHER_ONLY : Nat := 0x80

/-- Modelled from the spec: an algorithm identifier is kept as the bytes of
its OID and of its parameters field, and two identifiers are equal exactly
when they are byte-identical (spec section 3: "must be byte-identical").
The comparison operator of the external `AlgorithmIdentifier` class is not
part of this translation unit. -/
structure AlgorithmIdentifier where
  oid : List Nat
  parameters : List Nat
deriving DecidableEq, Repr

/-- One BER object as handed over by the external decoder's
`get_next_object`: a type tag, a class tag, and the value bytes. -/
structure BER_Object where
  type_tag : Nat
  class_tag : Nat
  value : List Nat
deriving DecidableEq, Repr

/-- Modelled from the spec: a distinguished name, compared by the external
`X509_DN` comparison; kept abstract as its attribute encoding. -/
abbrev DN := List Nat

/-- Modelled from the spec: the classification of a public-key algorithm
OID that the RSA policy of `force_decode` branches on.  In the source this
is computed by the external OID registry (`OIDS::oid2str`) followed by the
external `split_on` utility; only the resulting shape is consumed:
the name is `RSA` with no suffix, with suffix `EMSA4`, with suffix `OAEP`,
with some other suffix, or it is not an RSA name at all. -/
inductive KeyScheme where
  | rsa_plain
  | rsa_pss
  | rsa_oaep
  | rsa_other
  | other
deriving DecidableEq, Repr

/-- The view of the decoded v3 extensions that `force_decode` consumes via
`get_extension_object_as<Kind>`: for each cached extension kind, the value
it would pull if the extension object is present.  The extension decoders
themselves are external collaborators. -/
structure ExtensionsView where
  key_usage : Option Nat
  subject_key_id : Option (List Nat)
  authority_key_id : Option (List Nat)
  basic_constraints : Option (Bool × Nat)
  extended_key_usage : Option (List (List Nat))
deriving DecidableEq, Repr

/-- The empty extension set: what a v1/v2 certificate (no extensions block)
exposes to the cached-field lookups. -/
def emptyExtensions : ExtensionsView :=
  { key_usage := none, subject_key_id := none, authority_key_id := none,
    basic_constraints := none, extended_key_usage := none }

/-- The typed decode failures `force_decode` can raise (`Decoding_Error`
and `BER_Bad_Tag` in the source). -/
inductive DecodeError where
  | unknownVersion
  | algoIdMismatch
  | badPublicKeyTag (type_tag class_tag : Nat)
  | publicKeyAlgDecodeFail
  | pssAlgoMismatch
  | oaepUnsupported
  | rsaParamsNotNull
  | spkiDecodeFail
  | extensionsDecodeFail
  | unknownTagInCert (type_tag class_tag : Nat)
  | extraData
  | keyLoadFail
deriving DecidableEq, Repr

/-- The failure raised by an accessor after a successful decode
(`Encoding_Error` in the source). -/
inductive AccessError where
  | sha1UnavailableInBuild
deriving DecidableEq, Repr

/-- Everything `force_decode` receives: the state of the enclosing
`X509_Object` (outer algorithm, signature, signed body) plus the results
the external BER decoder yields for each field of the TBSCertificate
grammar.  A `none` in an `Option` field records that the corresponding
external decode step would throw. -/
structure TBSInput where
  version : Nat
  serial : List Nat
  sig_algo_outer : AlgorithmIdentifier
  sig_algo_inner : AlgorithmIdentifier
  issuer_dn : DN
  subject_dn : DN
  not_before : Nat
  not_after : Nat
  public_key : BER_Object
  public_key_alg_id : Option AlgorithmIdentifier
  spki_decode : Option (AlgorithmIdentifier × List Nat)
  v2_issuer_key_id : List Nat
  v2_subject_key_id : List Nat
  v3_exts_data : BER_Object
  ext_decode : Option ExtensionsView
  more_items : Bool
  signature : List Nat
  signed_body : List Nat

/-- Modelled from the spec: the external capabilities `force_decode`
calls - OID registry classification of the public-key algorithm, public-key
loading (`X509::load_key`, which can fail), signature verification
(`check_signature`, which returns a boolean), and the `SHA-1` hash, which
the build may leave unavailable (`none`). -/
structure Caps where
  pk_scheme : List Nat → KeyScheme
  load_key_ok : List Nat → Bool
  check_sig : List Nat → Bool
  sha1 : Option (List Nat → List Nat)

/-- The decoded certificate entity: the fields of `X509_Certificate`
populated by `force_decode`, together with the `X509_Object` base fields
(`signature`, `signature_algorithm`, `signed_body`).  The path length
member's default initialisation lives in the class declaration outside
this translation unit; "never captured" is modelled as `none` and a
capture of limit `p` as `some p`. -/
structure X509_Certificate where
  m_version : Nat
  m_serial : List Nat
  m_sig_algo_inner : AlgorithmIdentifier
  signature_algorithm : AlgorithmIdentifier
  signature : List Nat
  signed_body : List Nat
  m_issuer_dn : DN
  m_subject_dn : DN
  m_not_before : Nat
  m_not_after : Nat
  m_subject_public_key_bits : List Nat
  m_subject_public_key_algid : AlgorithmIdentifier
  m_subject_public_key_bitstring : List Nat
  m_v2_issuer_key_id : List Nat
  m_v2_subject_key_id : List Nat
  m_key_constraints : Nat
  m_subject_key_id : List Nat
  m_authority_key_id : List Nat
  m_is_ca_certificate : Bool
  m_path_len_constraint : Option Nat
  m_extended_key_usage : List (List Nat)
  m_self_signed : Bool
  m_subject_public_key_bitstring_sha1 : List Nat
deriving DecidableEq, Repr

/-- The body of `X509_Certificate::allowed_usage(Key_Constraints)` as a
function of the cached constraint mask, so that `force_decode` can evaluate
it mid-construction (line 182 of the source calls `allowed_usage` after
`m_key_constraints` is cached): unconstrained means every usage is allowed,
otherwise the queried bits must all be present. -/
def allowed_usage_bits (kc usage : Nat) : Bool :=
  if kc = NO_CONSTRAINTS then true
  else (kc &&& usage) == usage

/-- The RSA-specific public-key policy of `force_decode` (source lines
95-134): a PSS-restricted key must carry exactly the certificate's
signature algorithm identifier, OAEP keys are rejected, and a plain
`rsaEncryption` key must have NULL parameters. -/
def rsa_policy_check (pk_alg sig_algo : AlgorithmIdentifier)
    (scheme : KeyScheme) : Option DecodeError :=
  match scheme with
  | .rsa_pss => if pk_alg ≠ sig_algo then some .pssAlgoMismatch else none
  | .rsa_oaep => some .oaepUnsupported
  | .rsa_plain =>
      if pk_alg ≠ ⟨pk_alg.oid, DER_NULL⟩ then some .rsaParamsNotNull else none
  | .rsa_other => none
  | .other => none

/-- The v3 extensions step of `force_decode` (source lines 145-153): a
context tag 3 constructed object is decoded as the extensions block (the
external decode may fail), end of input means a v1/v2 certificate with no
extensions, any other tag is a hard failure. -/
def decode_v3_exts (obj : BER_Object) (ext_decode : Option ExtensionsView) :
    Except DecodeError ExtensionsView :=
  if obj.type_tag = 3 ∧ obj.class_tag = (CONSTRUCTED ||| CONTEXT_SPECIFIC) then
    match ext_decode with
    | some exts => .ok exts
    | none => .error .extensionsDecodeFail
  else if obj.type_tag ≠ NO_OBJECT then
    .error (.unknownTagInCert obj.type_tag obj.class_tag)
  else
    .ok emptyExtensions

/-- The Basic Constraints caching step of `force_decode` (source lines
178-189): when the extension is present and asserts CA, the CA flag is the
result of `allowed_usage(KEY_CERT_SIGN)` over the already-cached key
constraints, and the path limit is captured only when that flag is set. -/
def cache_basic_constraints (kc : Nat) (bc : Option (Bool × Nat)) :
    Bool × Option Nat :=
  match bc with
  | some (bc_is_ca, bc_path) =>
      if bc_is_ca then
        let ca := allowed_usage_bits kc KEY_CERT_SIGN
        (ca, if ca then some bc_path else none)
      else (false, none)
  | none => (false, none)

/-- Translation of `X509_Certificate::force_decode` (source lines 55-214):
the version bound, the inner/outer algorithm consistency check, the
public-key tag check, the RSA policy, the extensions step, the trailing
data check, the extension-derived cached fields, self-signed detection,
and the eager `SHA-1` digest of the public-key bit-string. -/
def force_decode (inp : TBSInput) (caps : Caps) :
    Except DecodeError X509_Certificate :=
  if 2 < inp.version then .error .unknownVersion
  else if inp.sig_algo_outer ≠ inp.sig_algo_inner then .error .algoIdMismatch
  else if inp.public_key.type_tag ≠ SEQUENCE ∨
          inp.public_key.class_tag ≠ CONSTRUCTED then
    .error (.badPublicKeyTag inp.public_key.type_tag inp.public_key.class_tag)
  else
    match inp.public_key_alg_id with
    | none => .error .publicKeyAlgDecodeFail
    | some pk_alg =>
      match rsa_policy_check pk_alg inp.sig_algo_outer
              (caps.pk_scheme pk_alg.oid) with
      | some e => .error e
      | none =>
        match inp.spki_decode with
        | none => .error .spkiDecodeFail
        | some (spki_algid, spki_bitstring) =>
          match decode_v3_exts inp.v3_exts_data inp.ext_decode with
          | .error e => .error e
          | .ok exts =>
            if inp.more_items then .error .extraData
            else if inp.subject_dn = inp.issuer_dn ∧
                    caps.load_key_ok inp.public_key.value = false then
              .error .keyLoadFail
            else
              .ok
                { m_version := inp.version + 1
                  m_serial := inp.serial
                  m_sig_algo_inner := inp.sig_algo_inner
                  signature_algorithm := inp.sig_algo_outer
                  signature := inp.signature
                  signed_body := inp.signed_body
                  m_issuer_dn := inp.issuer_dn
                  m_subject_dn := inp.subject_dn
                  m_not_before := inp.not_before
                  m_not_after := inp.not_after
                  m_subject_public_key_bits := inp.public_key.value
                  m_subject_public_key_algid := spki_algid
                  m_subject_public_key_bitstring := spki_bitstring
                  m_v2_issuer_key_id := inp.v2_issuer_key_id
                  m_v2_subject_key_id := inp.v2_subject_key_id
                  m_key_constraints := (exts.key_usage).getD NO_CONSTRAINTS
                  m_subject_key_id := (exts.subject_key_id).getD []
                  m_authority_key_id := (exts.authority_key_id).getD []
                  m_is_ca_certificate :=
                    (cache_basic_constraints
                      ((exts.key_usage).getD NO_CONSTRAINTS)
                      exts.basic_constraints).1
                  m_path_len_constraint :=
                    (cache_basic_constraints
                      ((exts.key_usage).getD NO_CONSTRAINTS)
                      exts.basic_constraints).2
                  m_extended_key_usage := (exts.extended_key_usage).getD []
                  m_self_signed :=
                    if inp.subject_dn = inp.issuer_dn then
                      caps.check_sig inp.public_key.value
                    else false
                  m_subject_public_key_bitstring_sha1 :=
                    match caps.sha1 with
                    | some h => h spki_bitstring
                    | none => [] }

/-- Accessor `X509_Certificate::x509_version`. -/
def X509_Certificate.x509_version (c : X509_Certificate) : Nat :=
  c.m_version

/-- Accessor `X509_Certificate::is_self_signed`. -/
def X509_Certificate.is_self_signed (c : X509_Certificate) : Bool :=
  c.m_self_signed

/-- Accessor `X509_Certificate::constraints`. -/
def X509_Certificate.constraints (c : X509_Certificate) : Nat :=
  c.m_key_constraints

/-- Accessor `X509_Certificate::is_CA_cert`. -/
def X509_Certificate.is_CA_cert (c : X509_Certificate) : Bool :=
  c.m_is_ca_certificate

/-- Accessor `X509_Certificate::path_limit`; `none` models the
never-captured default. -/
def X509_Certificate.path_limit (c : X509_Certificate) : Option Nat :=
  c.m_path_len_constraint

/-- Predicate `X509_Certificate::allowed_usage(Key_Constraints)` (source
lines 334-339). -/
def X509_Certificate.allowed_usage (c : X509_Certificate) (usage : Nat) :
    Bool :=
  allowed_usage_bits c.constraints usage

/-- Predicate `X509_Certificate::has_constraints` (source lines 383-391):
false when nothing was asserted, otherwise an intersection test. -/
def X509_Certificate.has_constraints (c : X509_Certificate)
    (constraints : Nat) : Bool :=
  if c.constraints = NO_CONSTRAINTS then false
  else (c.constraints &&& constraints) != 0

/-- Accessor `X509_Certificate::subject_public_key_bitstring_sha1` (source
lines 321-327): an empty cached digest means `SHA-1` was disabled in the
build and the access fails. -/
def X509_Certificate.subject_public_key_bitstring_sha1
    (c : X509_Certificate) : Except AccessError (List Nat) :=
  if c.m_subject_public_key_bitstring_sha1.isEmpty then
    .error .sha1UnavailableInBuild
  else .ok c.m_subject_public_key_bitstring_sha1

/-- Lexicographic comparison of byte vectors, the semantics of
`std::vector<uint8_t>::operator<` used by the certificate ordering. -/
def bytesLt : List Nat → List Nat → Bool
  | [], [] => false
  | [], _ :: _ => true
  | _ :: _, [] => false
  | a :: as, b :: bs =>
      if a < b then true
      else if b < a then false
      else bytesLt as bs

/-- Translation of `X509_Certificate::operator==` (source lines 613-618):
equality of the signature bytes, the signature algorithm, and the signed
body bytes. -/
def cert_eq (a b : X509_Certificate) : Bool :=
  a.signature == b.signature &&
  a.signature_algorithm == b.signature_algorithm &&
  a.signed_body == b.signed_body

/-- Translation of `X509_Certificate::operator<` (source lines 620-630):
sort by the signature bytes when they differ, otherwise by the signed body
bytes.  The signature algorithm is not consulted. -/
def cert_lt (a b : X509_Certificate) : Bool :=
  if a.signature ≠ b.signature then bytesLt a.signature b.signature
  else bytesLt a.signed_body b.signed_body

/-- One hexadecimal digit, upper case, as produced by the external
`hex_encode`. -/
def hexDigit (n : Nat) : Char :=
  match n with
  | 0 => '0' | 1 => '1' | 2 => '2' | 3 => '3' | 4 => '4'
  | 5 => '5' | 6 => '6' | 7 => '7' | 8 => '8' | 9 => '9'
  | 10 => 'A' | 11 => 'B' | 12 => 'C' | 13 => 'D' | 14 => 'E'
  | _ => 'F'

/-- Modelled from the spec: the external `hex_encode` utility - two upper
case hex characters per byte, high nibble first. -/
def hex_encode : List Nat → List Char
  | [] => []
  | b :: bs => hexDigit (b / 16 % 16) :: hexDigit (b % 16) :: hex_encode bs

/-- The formatting loop of `X509_Certificate::fingerprint` (source lines
576-587) over the hex expansion of the digest: copy two characters, and
append a colon unless they are the last two. -/
def fingerprint_format : List Char → List Char
  | [] => []
  | [c] => [c]
  | c1 :: c2 :: rest =>
      if rest.isEmpty then [c1, c2]
      else c1 :: c2 :: ':' :: fingerprint_format rest

/-- Translation of `X509_Certificate::fingerprint` (source lines 570-588)
as a function of the digest the external hash capability returns over the
re-encoded certificate: hex-encode the digest, then apply the separator
loop. -/
def fingerprint_of_digest (digest : List Nat) : List Char :=
  fingerprint_format (hex_encode digest)

/-- Statement of the spec's fingerprint format, written from its words: the
two-character hex chunks of the bytes joined with a colon between every
adjacent pair and none after the last. -/
def colon_chunks : List (List Char) → List Char
  | [] => []
  | [c] => c
  | c :: rest => c ++ ':' :: colon_chunks rest

/-- The two-character hex chunk of one byte, written from the spec's words
for comparison with the source's formatting loop. -/
def byte_chunk (b : Nat) : List Char :=
  [hexDigit (b / 16 % 16), hexDigit (b % 16)]

/-- A concrete capability set for the concrete evaluations below: a
non-RSA key scheme, a key that loads, a signature that verifies, `SHA-1`
unavailable. -/
def capsA : Caps :=
  { pk_scheme := fun _ => .other
    load_key_ok := fun _ => true
    check_sig := fun _ => true
    sha1 := none }

/-- A concrete well-formed decoder output: version 2 wire (v3), matching
algorithm identifiers, a constructed SEQUENCE public key, an extensions
block that decodes to the empty view, no trailing data, distinct subject
and issuer. -/
def inpA : TBSInput :=
  { version := 2
    serial := [1]
    sig_algo_outer := ⟨[42], [5, 0]⟩
    sig_algo_inner := ⟨[42], [5, 0]⟩
    issuer_dn := [1]
    subject_dn := [2]
    not_before := 0
    not_after := 1
    public_key := ⟨SEQUENCE, CONSTRUCTED, [7, 7]⟩
    public_key_alg_id := some ⟨[13], []⟩
    spki_decode := some (⟨[13], []⟩, [9, 9])
    v2_issuer_key_id := []
    v2_subject_key_id := []
    v3_exts_data := ⟨3, CONSTRUCTED ||| CONTEXT_SPECIFIC, [4]⟩
    ext_decode := some emptyExtensions
    more_items := false
    signature := [3]
    signed_body := [8] }

/-- Inversion of a successful decode: the guard conditions that must have
held and the cached-field values of the produced certificate. -/
theorem force_decode_ok_inv (inp : TBSInput) (caps : Caps)
    (c : X509_Certificate) (h : force_decode inp caps = .ok c) :
    inp.version ≤ 2 ∧
    inp.sig_algo_outer = inp.sig_algo_inner ∧
    ∃ exts, decode_v3_exts inp.v3_exts_data inp.ext_decode = .ok exts ∧
      c.m_version = inp.version + 1 ∧
      c.m_key_constraints = (exts.key_usage).getD NO_CONSTRAINTS ∧
      c.m_is_ca_certificate =
        (cache_basic_constraints ((exts.key_usage).getD NO_CONSTRAINTS)
          exts.basic_constraints).1 ∧
      c.m_path_len_constraint =
        (cache_basic_constraints ((exts.key_usage).getD NO_CONSTRAINTS)
          exts.basic_constraints).2 ∧
      c.m_subject_dn = inp.subject_dn ∧
      c.m_issuer_dn = inp.issuer_dn ∧
      c.m_self_signed =
        (if inp.subject_dn = inp.issuer_dn then
          caps.check_sig inp.public_key.value
         else false) ∧
      (caps.sha1 = none → c.m_subject_public_key_bitstring_sha1 = []) ∧
      (∀ f, caps.sha1 = some f →
        c.m_subject_public_key_bitstring_sha1 =
          f c.m_subject_public_key_bitstring) := by
  unfold force_decode at h
  split at h
  · exact Except.noConfusion h
  split at h
  · exact Except.noConfusion h
  split at h
  · exact Except.noConfusion h
  split at h
  · exact Except.noConfusion h
  split at h
  · exact Except.noConfusion h
  split at h
  · exact Except.noConfusion h
  split at h
  · exact Except.noConfusion h
  split at h
  · exact Except.noConfusion h
  split at h
  · exact Except.noConfusion h
  cases h
  refine ⟨by omega, by tauto, ?_⟩
  exact ⟨_, by assumption, rfl, rfl, rfl, rfl, rfl, rfl, rfl,
    (fun hn => by simp [hn]), (fun f hf => by simp [hf])⟩

/-- The decode outcome does not depend on the signature-verification result
or on the hash capability: only the record produced on success reads them. -/
theorem force_decode_isOk_congr (inp : TBSInput) (caps caps' : Caps)
    (hpk : caps'.pk_scheme = caps.pk_scheme)
    (hlk : caps'.load_key_ok = caps.load_key_ok) :
    (force_decode inp caps').isOk = (force_decode inp caps).isOk := by
  unfold force_decode
  rw [hpk, hlk]
  repeat' split
  all_goals rfl

/-- When subject and issuer differ, the self-signed branch is not entered:
the decode result is independent of the key-loading and
signature-verification capabilities. -/
theorem force_decode_dn_ne_congr (inp : TBSInput) (caps caps' : Caps)
    (hpk : caps'.pk_scheme = caps.pk_scheme)
    (hsh : caps'.sha1 = caps.sha1)
    (hdn : inp.subject_dn ≠ inp.issuer_dn) :
    force_decode inp caps' = force_decode inp caps := by
  unfold force_decode
  rw [hpk, hsh]
  simp only [hdn, false_and, if_false, ite_false]

/-- Lexicographic byte ordering is total and asymmetric: of two distinct
vectors exactly one is strictly below the other. -/
theorem bytesLt_cases (a : List Nat) :
    ∀ b : List Nat, a ≠ b →
      (bytesLt a b = true ∧ bytesLt b a = false) ∨
      (bytesLt a b = false ∧ bytesLt b a = true) := by
  induction a with
  | nil =>
    intro b h
    cases b with
    | nil => exact absurd rfl h
    | cons y ys => exact Or.inl ⟨rfl, rfl⟩
  | cons x xs ih =>
    intro b h
    cases b with
    | nil => exact Or.inr ⟨rfl, rfl⟩
    | cons y ys =>
      rcases Nat.lt_trichotomy x y with hxy | hxy | hxy
      · exact Or.inl ⟨by simp [bytesLt, hxy],
          by simp [bytesLt, Nat.lt_asymm hxy, hxy]⟩
      · subst hxy
        have hxs : xs ≠ ys := by
          intro he
          exact h (by rw [he])
        rcases ih ys hxs with ⟨h1, h2⟩ | ⟨h1, h2⟩
        · exact Or.inl ⟨by simp [bytesLt, h1], by simp [bytesLt, h2]⟩
        · exact Or.inr ⟨by simp [bytesLt, h1], by simp [bytesLt, h2]⟩
      · exact Or.inr ⟨by simp [bytesLt, Nat.lt_asymm hxy, hxy],
          by simp [bytesLt, hxy]⟩

/-- With asserted constraints, the single-bit usage query reads exactly the
corresponding bit of the mask. -/
theorem allowed_usage_bits_two_pow (kc k : Nat) (hk : kc ≠ NO_CONSTRAINTS) :
    (allowed_usage_bits kc (2 ^ k) = true ↔ kc.testBit k = true) := by
  unfold allowed_usage_bits
  rw [if_neg hk, Nat.and_two_pow]
  cases h : kc.testBit k with
  | false => simp [h, (Nat.two_pow_pos k).ne]
  | true => simp [h]

/-- A certificate value with every field trivial, used as the base of the
concrete instances below. -/
def certDummy : X509_Certificate :=
  { m_version := 1
    m_serial := []
    m_sig_algo_inner := ⟨[], []⟩
    signature_algorithm := ⟨[], []⟩
    signature := []
    signed_body := []
    m_issuer_dn := []
    m_subject_dn := []
    m_not_before := 0
    m_not_after := 0
    m_subject_public_key_bits := []
    m_subject_public_key_algid := ⟨[], []⟩
    m_subject_public_key_bitstring := []
    m_v2_issuer_key_id := []
    m_v2_subject_key_id := []
    m_key_constraints := NO_CONSTRAINTS
    m_subject_key_id := []
    m_authority_key_id := []
    m_is_ca_certificate := false
    m_path_len_constraint := none
    m_extended_key_usage := []
    m_self_signed := false
    m_subject_public_key_bitstring_sha1 := [] }

/-- The certificate produced by decoding the sample input `inpA`. -/
def certA : X509_Certificate :=
  ((force_decode inpA capsA).toOption).getD certDummy

/-- The nine single-usage bits of the Key Usage bitmask. -/
def usage_bit_list : List Nat :=
  [DIGITAL_SIGNATURE, NON_REPUDIATION, KEY_ENCIPHERMENT, DATA_ENCIPHERMENT,
   KEY_AGREEMENT, KEY_CERT_SIGN, CRL_SIGN, ENCIPHER_ONLY, DECIPHER_ONLY]

/-- C1: when the inner TBSCertificate signature-algorithm identifier
differs from the outer one captured before TBS decoding, `force_decode`
fails with a decode error and produces no certificate, whatever the rest
of the input holds. -/
theorem claim_C1_inner_outer_mismatch_fails (inp : TBSInput) (caps : Caps)
    (h : inp.sig_algo_inner ≠ inp.sig_algo_outer) :
    (force_decode inp caps).isOk = false := by
  unfold force_decode
  split
  · rfl
  · rw [if_pos (Ne.symm h)]
    rfl

/-- Witness for C1 at a concrete mismatching input. -/
theorem claim_C1_witness :
    ({ inpA with sig_algo_inner := ⟨[43], []⟩ } : TBSInput).sig_algo_inner ≠
      ({ inpA with sig_algo_inner := ⟨[43], []⟩ } : TBSInput).sig_algo_outer ∧
    (force_decode { inpA with sig_algo_inner := ⟨[43], []⟩ } capsA).isOk =
      false :=
  ⟨by decide,
   claim_C1_inner_outer_mismatch_fails
     { inpA with sig_algo_inner := ⟨[43], []⟩ } capsA (by decide)⟩

/-- C3: decode fails for wire versions above 2; on success the exposed
version is the wire value plus one and lies in `{1, 2, 3}`. -/
theorem claim_C3_version_bounds (inp : TBSInput) (caps : Caps) :
    (2 < inp.version → (force_decode inp caps).isOk = false) ∧
    (∀ c, force_decode inp caps = .ok c →
      c.x509_version = inp.version + 1 ∧
      (c.x509_version = 1 ∨ c.x509_version = 2 ∨ c.x509_version = 3)) := by
  constructor
  · intro hv
    unfold force_decode
    rw [if_pos hv]
    rfl
  · intro c h
    obtain ⟨hle, -, exts, -, hv, -⟩ := force_decode_ok_inv inp caps c h
    unfold X509_Certificate.x509_version
    rw [hv]
    omega

/-- Witness for C3: a wire version of 7 is rejected, and the decode of the
sample input reports version 3 = 2 + 1. -/
theorem claim_C3_witness :
    (force_decode { inpA with version := 7 } capsA).isOk = false ∧
    (certA.x509_version = inpA.version + 1 ∧
      (certA.x509_version = 1 ∨ certA.x509_version = 2 ∨
        certA.x509_version = 3)) :=
  ⟨(claim_C3_version_bounds { inpA with version := 7 } capsA).1 (by decide),
   (claim_C3_version_bounds inpA capsA).2 certA rfl⟩

/-- C4: with unconstrained key constraints every single usage bit is
allowed; with asserted constraints a single usage bit is allowed exactly
when the corresponding bit is set in the mask.  Every entry of
`usage_bit_list` is such a single bit `2 ^ k`. -/
theorem claim_C4_single_bit_usage (c : X509_Certificate) :
    (c.constraints = NO_CONSTRAINTS →
      ∀ u ∈ usage_bit_list, c.allowed_usage u = true) ∧
    (c.constraints ≠ NO_CONSTRAINTS →
      ∀ k : Nat, (c.allowed_usage (2 ^ k) = true ↔
        c.constraints.testBit k = true)) ∧
    (∀ u ∈ usage_bit_list, ∃ k ∈ List.range 16, u = 2 ^ k) := by
  refine ⟨?_, ?_, by decide⟩
  · intro h u _
    simp [X509_Certificate.allowed_usage, allowed_usage_bits, h]
  · intro h k
    exact allowed_usage_bits_two_pow c.constraints k h

/-- Witness for C4: the unconstrained dummy certificate allows every usage
bit, and a cert-sign-only certificate allows exactly bit 10. -/
theorem claim_C4_witness :
    (certDummy.allowed_usage DIGITAL_SIGNATURE = true) ∧
    (({ certDummy with m_key_constraints := KEY_CERT_SIGN } :
        X509_Certificate).allowed_usage (2 ^ 10) = true ↔
      ({ certDummy with m_key_constraints := KEY_CERT_SIGN } :
        X509_Certificate).constraints.testBit 10 = true) :=
  ⟨(claim_C4_single_bit_usage certDummy).1 (by decide) DIGITAL_SIGNATURE
     (by decide),
   ((claim_C4_single_bit_usage
       { certDummy with m_key_constraints := KEY_CERT_SIGN }).2.1
     (by decide) 10)⟩

/-- C10: with asserted constraints a multi-bit `allowed_usage` query is a
superset test over the queried bits, the zero mask is always allowed, and
`has_constraints` is an intersection test once constraints are asserted. -/
theorem claim_C10_mask_semantics (c : X509_Certificate) (u : Nat) :
    (c.constraints ≠ NO_CONSTRAINTS →
      (c.allowed_usage u = true ↔ c.constraints &&& u = u)) ∧
    c.allowed_usage NO_CONSTRAINTS = true ∧
    (c.constraints ≠ NO_CONSTRAINTS →
      (c.has_constraints u = true ↔ c.constraints &&& u ≠ 0)) := by
  refine ⟨?_, ?_, ?_⟩
  · intro h
    simp [X509_Certificate.allowed_usage, allowed_usage_bits, h]
  · by_cases h : c.constraints = NO_CONSTRAINTS <;>
      simp [X509_Certificate.allowed_usage, allowed_usage_bits, h,
        NO_CONSTRAINTS]
  · intro h
    simp [X509_Certificate.has_constraints, h]

/-- Witness for C10 on a cert-sign-only certificate and a two-bit query
mask. -/
theorem claim_C10_witness :
    ((({ certDummy with m_key_constraints := KEY_CERT_SIGN } :
        X509_Certificate).allowed_usage
          (KEY_CERT_SIGN ||| CRL_SIGN) = true ↔
      ({ certDummy with m_key_constraints := KEY_CERT_SIGN } :
        X509_Certificate).constraints &&& (KEY_CERT_SIGN ||| CRL_SIGN) =
          (KEY_CERT_SIGN ||| CRL_SIGN))) ∧
    (({ certDummy with m_key_constraints := KEY_CERT_SIGN } :
        X509_Certificate).has_constraints (KEY_CERT_SIGN ||| CRL_SIGN) =
          true ↔
      ({ certDummy with m_key_constraints := KEY_CERT_SIGN } :
        X509_Certificate).constraints &&& (KEY_CERT_SIGN ||| CRL_SIGN) ≠
          0) :=
  ⟨(claim_C10_mask_semantics
      { certDummy with m_key_constraints := KEY_CERT_SIGN }
      (KEY_CERT_SIGN ||| CRL_SIGN)).1 (by decide),
   (claim_C10_mask_semantics
      { certDummy with m_key_constraints := KEY_CERT_SIGN }
      (KEY_CERT_SIGN ||| CRL_SIGN)).2.2 (by decide)⟩

/-- An extensions view whose Key Usage object is present but carries the
zero mask, together with a CA Basic Constraints object. -/
def extC2 : ExtensionsView :=
  { emptyExtensions with
      key_usage := some 0
      basic_constraints := some (true, 5) }

/-- The sample input with `extC2` as its decoded extensions block. -/
def inpC2 : TBSInput := { inpA with ext_decode := some extC2 }

/-- Counterexample to C2 as stated: a Key Usage extension that is present
with the zero bitmask does not include `KEY_CERT_SIGN`, yet the decoded
certificate is a CA and its path length is captured, because the zero mask
is stored as `NO_CONSTRAINTS` and is then indistinguishable from an absent
extension. -/
theorem claim_C2_counterexample :
    inpC2.ext_decode = some extC2 ∧
    extC2.key_usage = some 0 ∧
    (0 &&& KEY_CERT_SIGN ≠ KEY_CERT_SIGN) ∧
    extC2.basic_constraints = some (true, 5) ∧
    (force_decode inpC2 capsA).toOption.map
      (fun c => (c.is_CA_cert, c.path_limit)) = some (true, some 5) := by
  decide

/-- C2 as amended: when the decoded Key Usage mask is nonzero and lacks the
`KEY_CERT_SIGN` bit, a CA Basic Constraints assertion is not honored: the
certificate is not a CA and no path length is captured. -/
theorem claim_C2_keyusage_blocks_ca (inp : TBSInput) (caps : Caps)
    (c : X509_Certificate) (exts : ExtensionsView) (m p : Nat)
    (h : force_decode inp caps = .ok c)
    (hexts : decode_v3_exts inp.v3_exts_data inp.ext_decode = .ok exts)
    (hku : exts.key_usage = some m)
    (hm : m ≠ NO_CONSTRAINTS)
    (hbit : m &&& KEY_CERT_SIGN = 0)
    (hbc : exts.basic_constraints = some (true, p)) :
    c.is_CA_cert = false ∧ c.path_limit = none := by
  obtain ⟨-, -, exts', hexts', -, -, hca, hpath, -⟩ :=
    force_decode_ok_inv inp caps c h
  have he : exts' = exts := by
    have := hexts'.symm.trans hexts
    injection this
  subst he
  unfold X509_Certificate.is_CA_cert X509_Certificate.path_limit
  rw [hca, hpath]
  unfold cache_basic_constraints
  rw [hbc, hku]
  have hfalse : allowed_usage_bits m KEY_CERT_SIGN = false := by
    unfold allowed_usage_bits
    rw [if_neg hm, hbit]
    decide
  simp [hfalse]

/-- Witness for the amended C2: a Key Usage of `DIGITAL_SIGNATURE` only
blocks the CA flag of a Basic Constraints CA assertion. -/
theorem claim_C2_witness :
    (force_decode
      { inpA with
          ext_decode := some
            { emptyExtensions with
                key_usage := some DIGITAL_SIGNATURE
                basic_constraints := some (true, 5) } } capsA).toOption.map
      (fun c => (c.is_CA_cert, c.path_limit)) = some (false, none) := by
  have h := claim_C2_keyusage_blocks_ca
    { inpA with
        ext_decode := some
          { emptyExtensions with
              key_usage := some DIGITAL_SIGNATURE
              basic_constraints := some (true, 5) } } capsA
    (((force_decode
      { inpA with
          ext_decode := some
            { emptyExtensions with
                key_usage := some DIGITAL_SIGNATURE
                basic_constraints := some (true, 5) } } capsA).toOption).getD
      certDummy)
    { emptyExtensions with
        key_usage := some DIGITAL_SIGNATURE
        basic_constraints := some (true, 5) }
    DIGITAL_SIGNATURE 5 rfl rfl (by decide) (by decide) (by decide)
    (by decide)
  rw [show (force_decode
      { inpA with
          ext_decode := some
            { emptyExtensions with
                key_usage := some DIGITAL_SIGNATURE
                basic_constraints := some (true, 5) } } capsA) = .ok
      (((force_decode
        { inpA with
            ext_decode := some
              { emptyExtensions with
                  key_usage := some DIGITAL_SIGNATURE
                  basic_constraints := some (true, 5) } } capsA).toOption).getD
        certDummy) from rfl]
  rw [Except.toOption, Option.map]
  rw [h.1, h.2]

/-- C9: a CA Basic Constraints assertion with no Key Usage extension at all
is honored: the certificate is a CA and the path length is captured,
because absence of Key Usage is stored as unconstrained and unconstrained
permits certificate signing. -/
theorem claim_C9_ca_without_keyusage (inp : TBSInput) (caps : Caps)
    (c : X509_Certificate) (exts : ExtensionsView) (p : Nat)
    (h : force_decode inp caps = .ok c)
    (hexts : decode_v3_exts inp.v3_exts_data inp.ext_decode = .ok exts)
    (hku : exts.key_usage = none)
    (hbc : exts.basic_constraints = some (true, p)) :
    c.is_CA_cert = true ∧ c.path_limit = some p := by
  obtain ⟨-, -, exts', hexts', -, -, hca, hpath, -⟩ :=
    force_decode_ok_inv inp caps c h
  have he : exts' = exts := by
    have := hexts'.symm.trans hexts
    injection this
  subst he
  unfold X509_Certificate.is_CA_cert X509_Certificate.path_limit
  rw [hca, hpath]
  unfold cache_basic_constraints
  rw [hbc, hku]
  simp [allowed_usage_bits]

/-- Witness for C9: Basic Constraints CA with path limit 7 and no Key
Usage yields a CA certificate with captured path limit 7. -/
theorem claim_C9_witness :
    (((force_decode
      { inpA with
          ext_decode := some
            { emptyExtensions with basic_constraints := some (true, 7) } }
      capsA).toOption).getD certDummy).is_CA_cert = true ∧
    (((force_decode
      { inpA with
          ext_decode := some
            { emptyExtensions with basic_constraints := some (true, 7) } }
      capsA).toOption).getD certDummy).path_limit = some 7 :=
  claim_C9_ca_without_keyusage
    { inpA with
        ext_decode := some
          { emptyExtensions with basic_constraints := some (true, 7) } }
    capsA
    (((force_decode
      { inpA with
          ext_decode := some
            { emptyExtensions with basic_constraints := some (true, 7) } }
      capsA).toOption).getD certDummy)
    { emptyExtensions with basic_constraints := some (true, 7) } 7
    rfl rfl (by decide) (by decide)

/-- Counterexample to C5 as stated: two certificates that differ only in
the signature-algorithm field are unequal under `operator==` (which does
compare that field) yet neither is below the other under `operator<`
(which compares only signature value and signed body). -/
theorem claim_C5_counterexample :
    cert_eq { certDummy with signature_algorithm := ⟨[1], []⟩ }
      { certDummy with signature_algorithm := ⟨[2], []⟩ } = false ∧
    cert_lt { certDummy with signature_algorithm := ⟨[1], []⟩ }
      { certDummy with signature_algorithm := ⟨[2], []⟩ } = false ∧
    cert_lt { certDummy with signature_algorithm := ⟨[2], []⟩ }
      { certDummy with signature_algorithm := ⟨[1], []⟩ } = false := by
  decide

/-- C5 as amended: `operator<` orders by the pair (signature value, signed
body bytes) only; whenever two certificates differ in that pair, exactly
one of them is strictly below the other. -/
theorem claim_C5_strict_order (a b : X509_Certificate)
    (h : a.signature ≠ b.signature ∨ a.signed_body ≠ b.signed_body) :
    (cert_lt a b = true ∧ cert_lt b a = false) ∨
    (cert_lt a b = false ∧ cert_lt b a = true) := by
  by_cases hs : a.signature = b.signature
  · have hb : a.signed_body ≠ b.signed_body := by tauto
    unfold cert_lt
    rw [if_neg (not_not_intro hs), if_neg (not_not_intro hs.symm)]
    exact bytesLt_cases a.signed_body b.signed_body hb
  · unfold cert_lt
    rw [if_pos hs, if_pos (Ne.symm hs)]
    exact bytesLt_cases a.signature b.signature hs

/-- Witness for the amended C5 at two certificates with distinct signature
bytes. -/
theorem claim_C5_witness :
    (cert_lt { certDummy with signature := [1] } certDummy = true ∧
      cert_lt certDummy { certDummy with signature := [1] } = false) ∨
    (cert_lt { certDummy with signature := [1] } certDummy = false ∧
      cert_lt certDummy { certDummy with signature := [1] } = true) :=
  claim_C5_strict_order { certDummy with signature := [1] } certDummy
    (Or.inl (by decide))

/-- C6: the signature-verification result never influences whether decode
succeeds; on success with equal subject and issuer the self-signed flag is
exactly the verification result; with distinct subject and issuer the flag
is false and neither key loading nor verification is consulted. -/
theorem claim_C6_self_signed (inp : TBSInput) (caps caps' : Caps)
    (hpk : caps'.pk_scheme = caps.pk_scheme)
    (hlk : caps'.load_key_ok = caps.load_key_ok)
    (hsh : caps'.sha1 = caps.sha1) :
    ((force_decode inp caps').isOk = (force_decode inp caps).isOk) ∧
    (∀ c, force_decode inp caps = .ok c →
      (inp.subject_dn = inp.issuer_dn →
        c.is_self_signed = caps.check_sig inp.public_key.value) ∧
      (inp.subject_dn ≠ inp.issuer_dn → c.is_self_signed = false)) ∧
    (inp.subject_dn ≠ inp.issuer_dn →
      force_decode inp caps' = force_decode inp caps) := by
  refine ⟨force_decode_isOk_congr inp caps caps' hpk hlk, ?_, ?_⟩
  · intro c h
    obtain ⟨-, -, exts, -, -, -, -, -, -, -, hss, -⟩ :=
      force_decode_ok_inv inp caps c h
    constructor
    · intro hdn
      rw [X509_Certificate.is_self_signed, hss, if_pos hdn]
    · intro hdn
      rw [X509_Certificate.is_self_signed, hss, if_neg hdn]
  · intro hdn
    exact force_decode_dn_ne_congr inp caps caps' hpk hsh hdn

/-- Witness for C6: a failing verifier does not stop decode of a
self-issued input, and flips the flag to false; the sample input with
distinct names ignores the verifier entirely. -/
theorem claim_C6_witness :
    ((force_decode { inpA with issuer_dn := [2] }
        { capsA with check_sig := fun _ => false }).isOk =
      (force_decode { inpA with issuer_dn := [2] } capsA).isOk) ∧
    ((((force_decode { inpA with issuer_dn := [2] }
        { capsA with check_sig := fun _ => false }).toOption).getD
        certDummy).is_self_signed =
      ({ capsA with check_sig := fun _ => false } : Caps).check_sig
        ({ inpA with issuer_dn := [2] } : TBSInput).public_key.value) ∧
    (force_decode inpA { capsA with check_sig := fun _ => false } =
      force_decode inpA capsA) :=
  ⟨(claim_C6_self_signed { inpA with issuer_dn := [2] }
      { capsA with check_sig := fun _ => false }
      { capsA with check_sig := fun _ => false } rfl rfl rfl).1,
   ((claim_C6_self_signed { inpA with issuer_dn := [2] }
      { capsA with check_sig := fun _ => false } capsA rfl rfl rfl).2.1
      (((force_decode { inpA with issuer_dn := [2] }
        { capsA with check_sig := fun _ => false }).toOption).getD certDummy)
      rfl).1 rfl,
   (claim_C6_self_signed inpA capsA
      { capsA with check_sig := fun _ => false } rfl rfl rfl).2.2
     (by decide)⟩

/-- C7: availability of the digest hash never influences decode success;
with the hash unavailable the cached digest stays empty and its accessor
fails with the explicit unavailability error; with the hash available (a
real hash has nonempty fixed-length digests) the accessor returns the
nonempty digest of the public-key bit-string. -/
theorem claim_C7_sha1_availability (inp : TBSInput) (caps : Caps)
    (f : List Nat → List Nat) :
    ((force_decode inp { caps with sha1 := none }).isOk =
      (force_decode inp caps).isOk) ∧
    (∀ c, force_decode inp { caps with sha1 := none } = .ok c →
      c.m_subject_public_key_bitstring_sha1 = [] ∧
      c.subject_public_key_bitstring_sha1 =
        .error .sha1UnavailableInBuild) ∧
    (∀ c, (∀ x, f x ≠ []) →
      force_decode inp { caps with sha1 := some f } = .ok c →
      c.subject_public_key_bitstring_sha1 =
        .ok (f c.m_subject_public_key_bitstring) ∧
      f c.m_subject_public_key_bitstring ≠ []) := by
  refine ⟨force_decode_isOk_congr inp caps { caps with sha1 := none } rfl rfl,
    ?_, ?_⟩
  · intro c h
    obtain ⟨-, -, exts, -, -, -, -, -, -, -, -, hnone, -⟩ :=
      force_decode_ok_inv inp { caps with sha1 := none } c h
    have hempty : c.m_subject_public_key_bitstring_sha1 = [] := hnone rfl
    refine ⟨hempty, ?_⟩
    unfold X509_Certificate.subject_public_key_bitstring_sha1
    rw [hempty]
    rfl
  · intro c hf h
    obtain ⟨-, -, exts, -, -, -, -, -, -, -, -, -, hsome⟩ :=
      force_decode_ok_inv inp { caps with sha1 := some f } c h
    have hval : c.m_subject_public_key_bitstring_sha1 =
        f c.m_subject_public_key_bitstring := hsome f rfl
    refine ⟨?_, hf _⟩
    unfold X509_Certificate.subject_public_key_bitstring_sha1
    rw [hval, if_neg ?_]
    intro hie
    exact hf _ (List.isEmpty_iff.mp hie)

/-- The sample capabilities with a constant nonempty hash installed as the
`SHA-1` capability. -/
def caps7 : Caps := { capsA with sha1 := some (fun _ => [1]) }

/-- The certificate produced by decoding the sample input with the
constant hash available. -/
def cert7 : X509_Certificate :=
  ((force_decode inpA caps7).toOption).getD certDummy

/-- Witness for C7: with `SHA-1` disabled the accessor of the decoded
sample certificate reports unavailability; with a constant nonempty hash
it returns that digest. -/
theorem claim_C7_witness :
    (certA.m_subject_public_key_bitstring_sha1 = [] ∧
      certA.subject_public_key_bitstring_sha1 =
        .error .sha1UnavailableInBuild) ∧
    (cert7.subject_public_key_bitstring_sha1 =
      .ok ((fun _ => [1]) cert7.m_subject_public_key_bitstring)) :=
  ⟨(claim_C7_sha1_availability inpA capsA (fun _ => [1])).2.1 certA rfl,
   ((claim_C7_sha1_availability inpA capsA (fun _ => [1])).2.2 cert7
      (fun x => by decide) rfl).1⟩

/-- The hex expansion of a nonempty byte list is nonempty. -/
theorem hex_encode_ne_nil (b : Nat) (bs : List Nat) :
    hex_encode (b :: bs) ≠ [] := by
  simp [hex_encode]

/-- Unfolding of the chunk join on a list of at least two chunks. -/
theorem colon_chunks_cons_cons (x y : List Char) (r : List (List Char)) :
    colon_chunks (x :: y :: r) = x ++ ':' :: colon_chunks (y :: r) := rfl

/-- The formatting loop equals the spec's chunk join, and its output
length is three characters per byte minus the trailing separator. -/
theorem fingerprint_chunks (d : List Nat) :
    d ≠ [] →
      fingerprint_of_digest d = colon_chunks (d.map byte_chunk) ∧
      (fingerprint_of_digest d).length = 3 * d.length - 1 := by
  induction d with
  | nil => intro h; exact absurd rfl h
  | cons b bs ih =>
    intro _
    cases bs with
    | nil =>
      constructor
      · rfl
      · rfl
    | cons b2 bs2 =>
      obtain ⟨ih1, ih2⟩ := ih (by simp)
      have hie : (hex_encode (b2 :: bs2)).isEmpty = false := rfl
      have hchunk : (b2 :: bs2).map byte_chunk =
          byte_chunk b2 :: bs2.map byte_chunk := rfl
      constructor
      · show fingerprint_format (hex_encode (b :: b2 :: bs2)) =
          colon_chunks ((b :: b2 :: bs2).map byte_chunk)
        rw [show hex_encode (b :: b2 :: bs2) =
          hexDigit (b / 16 % 16) :: hexDigit (b % 16) ::
            hex_encode (b2 :: bs2) from rfl]
        rw [fingerprint_format, hie]
        simp only [Bool.false_eq_true, if_false]
        rw [List.map_cons, hchunk, colon_chunks_cons_cons]
        rw [← hchunk, ← ih1]
        rfl
      · show (fingerprint_format (hex_encode (b :: b2 :: bs2))).length =
          3 * (b :: b2 :: bs2).length - 1
        rw [show hex_encode (b :: b2 :: bs2) =
          hexDigit (b / 16 % 16) :: hexDigit (b % 16) ::
            hex_encode (b2 :: bs2) from rfl]
        rw [fingerprint_format, hie]
        simp only [Bool.false_eq_true, if_false, List.length_cons]
        have := ih2
        unfold fingerprint_of_digest at this
        simp only [List.length_cons] at this ⊢
        omega

/-- C8: for a nonempty digest of n bytes the fingerprint is the
two-hex-character chunks of the bytes joined by a colon between every
adjacent pair and none after the last, so its length is exactly
3n - 1. -/
theorem claim_C8_fingerprint_format (d : List Nat) (h : d ≠ []) :
    fingerprint_of_digest d = colon_chunks (d.map byte_chunk) ∧
    (fingerprint_of_digest d).length = 3 * d.length - 1 :=
  fingerprint_chunks d h

/-- Witness for C8 on the two-byte digest `[171, 1]`, whose fingerprint is
`AB:01` of length 5. -/
theorem claim_C8_witness :
    fingerprint_of_digest [171, 1] = colon_chunks ([171, 1].map byte_chunk) ∧
    (fingerprint_of_digest [171, 1]).length = 3 * [171, 1].length - 1 :=
  claim_C8_fingerprint_format [171, 1] (by decide)

end X509
